import Mathlib

/-!
Verification of the Uniwill notebook driver (uniwill-laptop.c): the EC
register transport, the cached-register suspend/resume logic and the feature
controllers (super-key lock, charge threshold, lightbar, hwmon sensors) are
shallowly embedded below and the spec-level properties are proved about the
embedding.

Machine integers are modelled as `Nat` (C unsigned values) or `Int` (C signed
values and errno returns); C bitwise operators map to the corresponding `Nat`
operators, with `~mask` on a 32-bit unsigned value written as
`mask ^^^ (2 ^ 32 - 1)`.  Fallible operations return `Except Int α`, the `Int`
being the negative errno the C code returns.  Where a function performs regmap
calls whose outcomes depend on the hardware, the outcome of each call is an
explicit parameter (either a single `Except` result or an oracle
`Nat → Option Int` indexed by call number, `none` meaning success).
-/

namespace Uniwill

/-! ### Register addresses and bit masks (from uniwill-laptop.c) -/

def EC_ADDR_CPU_TEMP : Nat := 0x043E
def EC_ADDR_GPU_TEMP : Nat := 0x044F
def EC_ADDR_MAIN_FAN_RPM_1 : Nat := 0x0464
def EC_ADDR_SECOND_FAN_RPM_1 : Nat := 0x046C
def EC_ADDR_AP_OEM : Nat := 0x0741
def ENABLE_MANUAL_CTRL : Nat := 0x01
def EC_ADDR_LIGHTBAR_AC_CTRL : Nat := 0x0748
def LIGHTBAR_APP_EXISTS : Nat := 0x01
def LIGHTBAR_POWER_SAVE : Nat := 0x02
def LIGHTBAR_S0_OFF : Nat := 0x04
def LIGHTBAR_S3_OFF : Nat := 0x08
def LIGHTBAR_WELCOME : Nat := 0x80
def EC_ADDR_LIGHTBAR_AC_RED : Nat := 0x0749
def EC_ADDR_LIGHTBAR_AC_GREEN : Nat := 0x074A
def EC_ADDR_LIGHTBAR_AC_BLUE : Nat := 0x074B
def EC_ADDR_MANUAL_FAN_CTRL : Nat := 0x0751
def FAN_MODE_TURBO : Nat := 0x10
def FAN_MODE_HIGH : Nat := 0x20
def FAN_MODE_BOOST : Nat := 0x40
def FAN_MODE_USER : Nat := 0x80
def EC_ADDR_PWM_1 : Nat := 0x075B
def EC_ADDR_PWM_2 : Nat := 0x075C
def EC_ADDR_TRIGGER : Nat := 0x0767
def TRIGGER_SUPER_KEY_LOCK : Nat := 0x01
def EC_ADDR_SWITCH_STATUS : Nat := 0x0768
def SUPER_KEY_LOCK_STATUS : Nat := 0x01
def EC_ADDR_CHARGE_CTRL : Nat := 0x07B9
def CHARGE_CTRL_MASK : Nat := 0x7F
def CHARGE_CTRL_REACHED : Nat := 0x80
def EC_ADDR_LIGHTBAR_BAT_CTRL : Nat := 0x07E2
def EC_ADDR_LIGHTBAR_BAT_RED : Nat := 0x07E3
def EC_ADDR_LIGHTBAR_BAT_GREEN : Nat := 0x07E4
def EC_ADDR_LIGHTBAR_BAT_BLUE : Nat := 0x07E5
def PWM_MAX : Nat := 200
def U8_MAX : Nat := 255

/-- `LIGHTBAR_MASK` from uniwill-laptop.c:
`LIGHTBAR_APP_EXISTS | LIGHTBAR_S0_OFF | LIGHTBAR_S3_OFF | LIGHTBAR_WELCOME`. -/
def LIGHTBAR_MASK : Nat :=
  LIGHTBAR_APP_EXISTS ||| LIGHTBAR_S0_OFF ||| LIGHTBAR_S3_OFF ||| LIGHTBAR_WELCOME

/-! ### errno values used by the driver (positive magnitudes; the code
returns their negations) -/

def ENXIO : Int := 6
def EINVAL : Int := 22
def EOPNOTSUPP : Int := 95

/-! ### Bit manipulation helpers -/

/-- C unary complement `~mask` applied to a 32-bit unsigned value. -/
def complement32 (mask : Nat) : Nat := mask ^^^ (2 ^ 32 - 1)

/-- The register value produced by `regmap_update_bits(map, reg, mask, val)`
(and by `regmap_write_bits`): `(orig & ~mask) | (val & mask)`. -/
def regmap_update_bits_val (orig mask val : Nat) : Nat :=
  (orig &&& complement32 mask) ||| (val &&& mask)

/-- C logical negation `!n` of an integer value. -/
def cLogicalNot (n : Nat) : Nat := if n = 0 then 1 else 0

/-! ### Transport layer (uniwill_ec_reg_write / uniwill_ec_reg_read) -/

/-- Outcome of the 32-bit `uniwill_get_set_ulong` WMI call: a negative errno
or the 32-bit output word. -/
abbrev CallResult := Except Int Nat

/-- `uniwill_ec_reg_write` from uniwill-laptop.c.  The encoding of the request
buffer (`address`, `data = val & U8_MAX`, `operation = 0x0000`) does not affect
the result and is omitted; what matters is the handling of the 32-bit output:
a failed call propagates its error, the sentinel output `0xFEFEFEFE` becomes
`-ENXIO`, anything else is success. -/
def uniwill_ec_reg_write (callRes : CallResult) : Except Int Unit :=
  match callRes with
  | .error e => .error e
  | .ok output =>
    if output = 0xFEFEFEFE then .error (- ENXIO)
    else .ok ()

/-- `uniwill_ec_reg_read` from uniwill-laptop.c: like the write path, but on
success the low byte of the output (`*val = (u8)output`) is the register
value. -/
def uniwill_ec_reg_read (callRes : CallResult) : Except Int Nat :=
  match callRes with
  | .error e => .error e
  | .ok output =>
    if output = 0xFEFEFEFE then .error (- ENXIO)
    else .ok (output % 256)

/-- The regmap cache after a register write through `uniwill_ec_bus`: the
regmap core stores `val` for `reg` only when the bus `reg_write` callback
reports success; a failed write leaves the cache untouched. -/
def regcache_after_write (cache : Nat → Option Nat) (reg val : Nat)
    (busRes : Except Int Unit) : Nat → Option Nat :=
  match busRes with
  | .ok _ => fun a => if a = reg then some val else cache a
  | .error _ => cache

/-! ### super_key_lock_store (claim C1) -/

/-- Outcome of the `super_key_lock_store` sysfs callback: whether the toggle
trigger write was issued, and the returned value (`ok ()` standing for the
successful return of `count`). -/
structure SklStoreOut where
  fired : Bool
  result : Except Int Unit

set_option linter.unusedVariables false in
/-- `super_key_lock_store` from uniwill-laptop.c.  `desired` is the value
parsed by `sysfs_match_string` (0 = "disable", 1 = "enable"); `readRes` is the
outcome of `regmap_read(EC_ADDR_SWITCH_STATUS)`, `trigRes` the outcome of the
trigger write.  Note that in the C code the variable `ret` holding `desired`
is overwritten by `regmap_read`'s return value (0 on success) before the
comparison `if (ret == !(value & SUPER_KEY_LOCK_STATUS))`, so the comparison
is against the constant 0, not against `desired`; the embedding reproduces
this faithfully. -/
def super_key_lock_store (desired : Nat) (readRes : Except Int Nat)
    (trigRes : Except Int Unit) : SklStoreOut :=
  match readRes with
  | .error e => { fired := false, result := .error e }
  | .ok value =>
    if (0 : Nat) = cLogicalNot (value &&& SUPER_KEY_LOCK_STATUS) then
      { fired := false, result := .ok () }
    else
      match trigRes with
      | .error e => { fired := true, result := .error e }
      | .ok _ => { fired := true, result := .ok () }

/-- The super-key-lock state exposed by `super_key_lock_show`:
`!(value & SUPER_KEY_LOCK_STATUS)` (1 = "enable"). -/
def super_key_lock_shown (value : Nat) : Nat :=
  cLogicalNot (value &&& SUPER_KEY_LOCK_STATUS)

/-! ### Charge threshold (claim C3) -/

/-- `uniwill_set_property` for `POWER_SUPPLY_PROP_CHARGE_CONTROL_END_THRESHOLD`
from uniwill-laptop.c: values outside 1..100 are rejected with `-EINVAL`
before any register access; otherwise
`regmap_update_bits(EC_ADDR_CHARGE_CTRL, CHARGE_CTRL_MASK, intval)` is issued
and the resulting register value is returned. -/
def uniwill_set_property_charge (intval : Int) (reg : Nat) : Except Int Nat :=
  if intval < 1 ∨ intval > 100 then .error (-EINVAL)
  else .ok (regmap_update_bits_val reg CHARGE_CTRL_MASK intval.toNat)

/-- `uniwill_get_property` for the charge threshold from uniwill-laptop.c:
`clamp_val(FIELD_GET(CHARGE_CTRL_MASK, regval), 0, 100)`, where
`FIELD_GET(GENMASK(6, 0), regval)` is `regval & 0x7F`. -/
def uniwill_get_property_charge (readRes : Except Int Nat) : Except Int Nat :=
  match readRes with
  | .error e => .error e
  | .ok regval => .ok (min (max (regval &&& CHARGE_CTRL_MASK) 0) 100)

/-! ### PWM rescaling (claim C6) -/

/-- `fixp_linear_interpolate` from `<linux/fixp-arith.h>`, called by
`uniwill_read` for the PWM channels.  C integer division on `s32` truncates
towards zero, i.e. `Int.tdiv`. -/
def fixp_linear_interpolate (x0 y0 x1 y1 x : Int) : Int :=
  if y0 = y1 ∨ x = x0 then y0
  else if x1 = x0 ∨ x = x1 then y1
  else y0 + Int.tdiv ((y1 - y0) * (x - x0)) (x1 - x0)

/-- The hardware→software PWM duty rescaling performed by `uniwill_read`:
`fixp_linear_interpolate(0, 0, PWM_MAX, U8_MAX, value)`. -/
def hardware_to_software (x : Int) : Int :=
  fixp_linear_interpolate 0 0 (PWM_MAX : Int) (U8_MAX : Int) x

/-- Modelled from the spec: the software→hardware PWM rescaling ("the inverse
255→200") is not present in src/ — the driver exposes the PWM duty channels
read-only — so, following spec section 4.3 ("PWM duty values are linearly
rescaled between the hardware's native range (0..=200) and the 0..=255
software range using integer linear interpolation"), it is the same
interpolation routine with the two ranges swapped. -/
def software_to_hardware (y : Int) : Int :=
  fixp_linear_interpolate 0 0 (U8_MAX : Int) (PWM_MAX : Int) y

/-! ### hwmon uniwill_read (claims C6, C7) -/

/-- The hwmon sensor types `uniwill_read` distinguishes; `other` covers every
type reaching the default branch. -/
inductive HwmonSensor where
  | temp
  | fan
  | pwm
  | other

/-- `uniwill_read` from uniwill-laptop.c.  `byteRes` is the outcome of the
single-register `regmap_read` performed by the temp and pwm cases, `pairRes`
the outcome of the two-byte big-endian `regmap_bulk_read` of the fan case.
`stale` models the content the on-stack `value` variable keeps when
`regmap_read` fails (the C code leaves it uninitialised): in the pwm case the
code does NOT check the return value of `regmap_read` and always computes the
interpolation and returns 0, which the embedding reproduces faithfully. -/
def uniwill_read (t : HwmonSensor) (channel : Nat)
    (byteRes : Except Int Nat) (pairRes : Except Int (Nat × Nat))
    (stale : Nat) : Except Int Int :=
  match t with
  | .temp =>
    if channel < 2 then
      match byteRes with
      | .error e => .error e
      | .ok value => .ok ((value : Int) * 1000)
    else .error (-EOPNOTSUPP)
  | .fan =>
    if channel < 2 then
      match pairRes with
      | .error e => .error e
      | .ok rpm => .ok ((rpm.1 : Int) * 256 + (rpm.2 : Int))
    else .error (-EOPNOTSUPP)
  | .pwm =>
    if channel < 2 then
      let value : Nat :=
        match byteRes with
        | .ok v => v
        | .error _ => stale
      .ok (hardware_to_software (value : Int))
    else .error (-EOPNOTSUPP)
  | .other => .error (-EOPNOTSUPP)

/-! ### Lightbar (claims C4, C10) -/

/-- The EC byte-register space, address → value. -/
abbrev Regs := Nat → Nat

/-- A register write as seen in the final register state. -/
def setReg (s : Regs) (addr val : Nat) : Regs :=
  fun a => if a = addr then val else s a

/-- `uniwill_led_channel_to_ac_reg` from uniwill-laptop.c (channel 0 = red,
1 = green, 2 = blue). -/
def uniwill_led_channel_to_ac_reg (i : Nat) : Nat :=
  if i = 0 then EC_ADDR_LIGHTBAR_AC_RED
  else if i = 1 then EC_ADDR_LIGHTBAR_AC_GREEN
  else EC_ADDR_LIGHTBAR_AC_BLUE

/-- `uniwill_led_channel_to_bat_reg` from uniwill-laptop.c (channel 0 = red,
1 = green, 2 = blue). -/
def uniwill_led_channel_to_bat_reg (i : Nat) : Nat :=
  if i = 0 then EC_ADDR_LIGHTBAR_BAT_RED
  else if i = 1 then EC_ADDR_LIGHTBAR_BAT_GREEN
  else EC_ADDR_LIGHTBAR_BAT_BLUE

/-- The channel loop of `uniwill_led_brightness_set`: for each channel `i`,
write `min(U8_MAX, subled_info[i].brightness)` first to the AC colour register
and then to the battery colour register, aborting on the first failed write.
`f` is the per-call outcome oracle, `k` the index of the next regmap call,
`comps i` the computed colour component of channel `i`. -/
def ledWriteChannels (f : Nat → Option Int) (comps : Nat → Nat) :
    List Nat → Nat → Regs → Except Int (Regs × Nat)
  | [], k, s => .ok (s, k)
  | i :: rest, k, s =>
    let value := min U8_MAX (comps i)
    match f k with
    | some e => .error e
    | none =>
      let s1 := setReg s (uniwill_led_channel_to_ac_reg i) value
      match f (k + 1) with
      | some e => .error e
      | none =>
        ledWriteChannels f comps rest (k + 2)
          (setReg s1 (uniwill_led_channel_to_bat_reg i) value)

/-- `uniwill_led_brightness_set` from uniwill-laptop.c.  `calcRes` is the
outcome of `led_mc_calc_color_components` (`none` = success), `comps` the
per-channel components it computed, `f` the per-regmap-call outcome oracle.
After the colour writes, `LIGHTBAR_S0_OFF` is cleared (brightness non-zero)
or set (brightness zero) in the AC control register and then in the battery
control register. -/
def uniwill_led_brightness_set (calcRes : Option Int) (f : Nat → Option Int)
    (comps : Nat → Nat) (brightness : Nat) (s : Regs) : Except Int Regs :=
  match calcRes with
  | some e => .error e
  | none =>
    match ledWriteChannels f comps [0, 1, 2] 0 s with
    | .error e => .error e
    | .ok (s1, k) =>
      let value := if brightness ≠ 0 then 0 else LIGHTBAR_S0_OFF
      match f k with
      | some e => .error e
      | none =>
        let s2 := setReg s1 EC_ADDR_LIGHTBAR_AC_CTRL
          (regmap_update_bits_val (s1 EC_ADDR_LIGHTBAR_AC_CTRL) LIGHTBAR_S0_OFF value)
        match f (k + 1) with
        | some e => .error e
        | none =>
          .ok (setReg s2 EC_ADDR_LIGHTBAR_BAT_CTRL
            (regmap_update_bits_val (s2 EC_ADDR_LIGHTBAR_BAT_CTRL) LIGHTBAR_S0_OFF value))

/-- The channel loop of `uniwill_led_init`: for each channel, read the AC
colour register and write the value read to the battery colour register. -/
def ledInitChannels (f : Nat → Option Int) :
    List Nat → Nat → Regs → Except Int (Regs × Nat)
  | [], k, s => .ok (s, k)
  | i :: rest, k, s =>
    match f k with
    | some e => .error e
    | none =>
      let value := s (uniwill_led_channel_to_ac_reg i)
      match f (k + 1) with
      | some e => .error e
      | none =>
        ledInitChannels f rest (k + 2)
          (setReg s (uniwill_led_channel_to_bat_reg i) value)

/-- The register operations of `uniwill_led_init` from uniwill-laptop.c: read
the AC control register, force `LIGHTBAR_APP_EXISTS | LIGHTBAR_S3_OFF` on and
`LIGHTBAR_WELCOME` off, write the result back to the AC control register,
mirror it under `LIGHTBAR_MASK` onto the battery control register, then copy
each AC colour register to the corresponding battery colour register.  (The
LED class-device registration that follows performs no further register
access.) -/
def uniwill_led_init (f : Nat → Option Int) (s : Regs) : Except Int Regs :=
  match f 0 with
  | some e => .error e
  | none =>
    let value := (s EC_ADDR_LIGHTBAR_AC_CTRL |||
      (LIGHTBAR_APP_EXISTS ||| LIGHTBAR_S3_OFF)) &&& complement32 LIGHTBAR_WELCOME
    match f 1 with
    | some e => .error e
    | none =>
      let s1 := setReg s EC_ADDR_LIGHTBAR_AC_CTRL value
      match f 2 with
      | some e => .error e
      | none =>
        let s2 := setReg s1 EC_ADDR_LIGHTBAR_BAT_CTRL
          (regmap_update_bits_val (s1 EC_ADDR_LIGHTBAR_BAT_CTRL) LIGHTBAR_MASK value)
        match ledInitChannels f [0, 1, 2] 3 s2 with
        | .error e => .error e
        | .ok (s3, _) => .ok s3

/-- The lightbar mirroring invariant: the AC and battery colour registers are
equal channel by channel, and the AC and battery control registers agree on
every bit of `LIGHTBAR_MASK` (the on/off flag `LIGHTBAR_S0_OFF` and the
animation flags `LIGHTBAR_APP_EXISTS`, `LIGHTBAR_S3_OFF`,
`LIGHTBAR_WELCOME`). -/
def lightbarMirrored (s : Regs) : Prop :=
  s EC_ADDR_LIGHTBAR_AC_RED = s EC_ADDR_LIGHTBAR_BAT_RED ∧
  s EC_ADDR_LIGHTBAR_AC_GREEN = s EC_ADDR_LIGHTBAR_BAT_GREEN ∧
  s EC_ADDR_LIGHTBAR_AC_BLUE = s EC_ADDR_LIGHTBAR_BAT_BLUE ∧
  s EC_ADDR_LIGHTBAR_AC_CTRL &&& LIGHTBAR_MASK =
    s EC_ADDR_LIGHTBAR_BAT_CTRL &&& LIGHTBAR_MASK

/-- The register state produced by a successful `uniwill_led_init` run from
the all-zero register state (used as a concrete evaluation point). -/
def ledInitDemoFinal : Regs :=
  setReg (setReg (setReg (setReg (setReg (fun _ => 0)
    EC_ADDR_LIGHTBAR_AC_CTRL 9)
    EC_ADDR_LIGHTBAR_BAT_CTRL 9)
    EC_ADDR_LIGHTBAR_BAT_RED 0)
    EC_ADDR_LIGHTBAR_BAT_GREEN 0)
    EC_ADDR_LIGHTBAR_BAT_BLUE 0

/-- The register state produced by a successful `uniwill_led_brightness_set`
run from the all-zero register state with all colour components 0 and
brightness 0 (used as a concrete evaluation point). -/
def ledMirrorDemoFinal : Regs :=
  setReg (setReg (setReg (setReg (setReg (setReg (setReg (setReg (fun _ => 0)
    EC_ADDR_LIGHTBAR_AC_RED 0)
    EC_ADDR_LIGHTBAR_BAT_RED 0)
    EC_ADDR_LIGHTBAR_AC_GREEN 0)
    EC_ADDR_LIGHTBAR_BAT_GREEN 0)
    EC_ADDR_LIGHTBAR_AC_BLUE 0)
    EC_ADDR_LIGHTBAR_BAT_BLUE 0)
    EC_ADDR_LIGHTBAR_AC_CTRL 4)
    EC_ADDR_LIGHTBAR_BAT_CTRL 4

/-- The register state produced by a successful `uniwill_led_brightness_set`
run from the all-zero register state with every colour component 300 and
brightness 255 (used as a concrete evaluation point for the clamping
claim). -/
def ledClampDemoFinal : Regs :=
  setReg (setReg (setReg (setReg (setReg (setReg (setReg (setReg (fun _ => 0)
    EC_ADDR_LIGHTBAR_AC_RED 255)
    EC_ADDR_LIGHTBAR_BAT_RED 255)
    EC_ADDR_LIGHTBAR_AC_GREEN 255)
    EC_ADDR_LIGHTBAR_BAT_GREEN 255)
    EC_ADDR_LIGHTBAR_AC_BLUE 255)
    EC_ADDR_LIGHTBAR_BAT_BLUE 255)
    EC_ADDR_LIGHTBAR_AC_CTRL 0)
    EC_ADDR_LIGHTBAR_BAT_CTRL 0

/-! ### Suspend / resume (claims C5, C8) -/

/-- The register-map operations the suspend/resume hooks perform, in order. -/
inductive ECOp where
  | read (addr : Nat)
  | write (addr val : Nat)
  | updateBits (addr mask val : Nat)
  | writeBits (addr mask val : Nat)
  | cacheOnly (enable : Bool)
  | markDirty
  | sync
  deriving DecidableEq

/-- Whether an operation writes to the hardware or to the cache. -/
def ECOp.isWriteOp : ECOp → Bool
  | .write _ _ => true
  | .updateBits _ _ _ => true
  | .writeBits _ _ _ => true
  | _ => false

/-- Outcome of `uniwill_suspend`: the returned value, the values saved in
`data->last_switch_status` and `data->last_charge_limit` (`none` when the
early error return happens before the assignment), and the ordered list of
register-map operations issued. -/
structure SuspendOut where
  result : Except Int Unit
  lastSwitchStatus : Option Nat
  lastChargeLimit : Option Nat
  trace : List ECOp

/-- `uniwill_suspend` from uniwill-laptop.c: read `EC_ADDR_SWITCH_STATUS`
into `last_switch_status`, read `EC_ADDR_CHARGE_CTRL` and save
`FIELD_GET(CHARGE_CTRL_MASK, value)` into `last_charge_limit`, then enter
cache-only mode and mark the cache dirty.  No write of any kind is issued. -/
def uniwill_suspend (switchRes chargeRes : Except Int Nat) : SuspendOut :=
  match switchRes with
  | .error e =>
    { result := .error e, lastSwitchStatus := none, lastChargeLimit := none,
      trace := [.read EC_ADDR_SWITCH_STATUS] }
  | .ok sw =>
    match chargeRes with
    | .error e =>
      { result := .error e, lastSwitchStatus := some sw, lastChargeLimit := none,
        trace := [.read EC_ADDR_SWITCH_STATUS, .read EC_ADDR_CHARGE_CTRL] }
    | .ok value =>
      { result := .ok (), lastSwitchStatus := some sw,
        lastChargeLimit := some (value &&& CHARGE_CTRL_MASK),
        trace := [.read EC_ADDR_SWITCH_STATUS, .read EC_ADDR_CHARGE_CTRL,
                  .cacheOnly true, .markDirty] }

/-- `uniwill_resume` from uniwill-laptop.c: leave cache-only mode, replay the
dirty cache entries (`regcache_sync`), restore the saved charge limit with
`regmap_update_bits(EC_ADDR_CHARGE_CTRL, CHARGE_CTRL_MASK, last_charge_limit)`,
read `EC_ADDR_SWITCH_STATUS`, and fire the super-key-lock toggle trigger
exactly when the saved and the freshly read `SUPER_KEY_LOCK_STATUS` bits
differ.  Returns the result together with the ordered operation trace. -/
def uniwill_resume (lastSwitchStatus lastChargeLimit : Nat)
    (syncRes updRes : Except Int Unit) (readRes : Except Int Nat)
    (trigRes : Except Int Unit) : Except Int Unit × List ECOp :=
  match syncRes with
  | .error e => (.error e, [.cacheOnly false, .sync])
  | .ok _ =>
    match updRes with
    | .error e =>
      (.error e, [.cacheOnly false, .sync,
        .updateBits EC_ADDR_CHARGE_CTRL CHARGE_CTRL_MASK lastChargeLimit])
    | .ok _ =>
      match readRes with
      | .error e =>
        (.error e, [.cacheOnly false, .sync,
          .updateBits EC_ADDR_CHARGE_CTRL CHARGE_CTRL_MASK lastChargeLimit,
          .read EC_ADDR_SWITCH_STATUS])
      | .ok value =>
        if lastSwitchStatus &&& SUPER_KEY_LOCK_STATUS =
            value &&& SUPER_KEY_LOCK_STATUS then
          (.ok (), [.cacheOnly false, .sync,
            .updateBits EC_ADDR_CHARGE_CTRL CHARGE_CTRL_MASK lastChargeLimit,
            .read EC_ADDR_SWITCH_STATUS])
        else
          ((match trigRes with
            | .error e => .error e
            | .ok _ => .ok ()),
           [.cacheOnly false, .sync,
            .updateBits EC_ADDR_CHARGE_CTRL CHARGE_CTRL_MASK lastChargeLimit,
            .read EC_ADDR_SWITCH_STATUS,
            .writeBits EC_ADDR_TRIGGER TRIGGER_SUPER_KEY_LOCK TRIGGER_SUPER_KEY_LOCK])

/-! ### Fan controller (claim C9) -/

/-- The fan states of spec section 4.3. -/
inductive FanMode where
  | automatic
  | manual (duty : Int)
  | maxSpeed
  deriving DecidableEq

/-- The registers the fan controller touches. -/
structure FanRegs where
  apOem : Nat
  fanCtrl : Nat
  pwm : Nat

/-- Modelled from the spec: `FanController.get_mode` is not present in src/
(the driver exposes the PWM channels read-only, see `uniwill_is_visible`);
per spec section 4.3 it reads the manual-control-enable bit and the boost bit
and derives `Automatic`, `MaxSpeed` (duty at the hardware maximum) or
`Manual(scaled duty)`. -/
def fan_get_mode (s : FanRegs) : FanMode :=
  if s.apOem &&& ENABLE_MANUAL_CTRL = 0 then .automatic
  else if s.fanCtrl &&& FAN_MODE_BOOST ≠ 0 then
    if s.pwm = PWM_MAX then .maxSpeed
    else .manual (hardware_to_software (s.pwm : Int))
  else .automatic

/-- Modelled from the spec: the automatic-mode bitfield update of spec
section 4.3 "clears manual/boost/turbo bits as a single masked update". -/
def FAN_AUTO_CLEAR_MASK : Nat := FAN_MODE_USER ||| FAN_MODE_BOOST ||| FAN_MODE_TURBO

/-- Modelled from the spec: the fan-control register value after the
automatic-mode masked update. -/
def fan_set_auto_val (ctrl : Nat) : Nat :=
  regmap_update_bits_val ctrl FAN_AUTO_CLEAR_MASK 0

/-- Modelled from the spec: `FanController.set_mode(Manual(duty))` is not
present in src/; per spec section 4.3 it reads the current PWM register
value, writes the boost-mode bit, then writes the requested duty; if the duty
write fails it attempts the automatic-mode fallback write and returns the
original error (a failed fallback is itself reported to the caller).  Each
register access outcome is an explicit parameter. -/
def fan_set_mode_manual (duty : Nat) (readRes : Except Int Nat)
    (boostRes dutyRes fallbackRes : Except Int Unit) (s : FanRegs) :
    Except Int Unit × FanRegs :=
  match readRes with
  | .error e => (.error e, s)
  | .ok _ =>
    match boostRes with
    | .error e => (.error e, s)
    | .ok _ =>
      let s1 : FanRegs :=
        { s with fanCtrl := regmap_update_bits_val s.fanCtrl FAN_MODE_BOOST FAN_MODE_BOOST }
      match dutyRes with
      | .ok _ => (.ok (), { s1 with pwm := (software_to_hardware (duty : Int)).toNat })
      | .error e =>
        match fallbackRes with
        | .ok _ => (.error e, { s1 with fanCtrl := fan_set_auto_val s1.fanCtrl })
        | .error e2 => (.error e2, s1)

/-! ## Helper lemmas about `regmap_update_bits_val` -/

/-- Bits of a value below `2 ^ 32` vanish at positions 32 and above. -/
theorem testBit_eq_false_of_lt_32 {m : Nat} (hm : m < 2 ^ 32) {i : Nat}
    (hi : ¬i < 32) : m.testBit i = false := by
  apply Nat.testBit_lt_two_pow
  calc m < 2 ^ 32 := hm
    _ ≤ 2 ^ i := Nat.pow_le_pow_right (by norm_num) (Nat.le_of_not_lt hi)

/-- On any submask `p` of `mask`, an update-bits result carries the bits of
`val`. -/
theorem regmap_update_bits_val_and_submask (orig mask val p : Nat)
    (hmask : mask < 2 ^ 32) (hp : p &&& mask = p) :
    regmap_update_bits_val orig mask val &&& p = val &&& p := by
  apply Nat.eq_of_testBit_eq
  intro i
  have hpi := congrArg (fun n => n.testBit i) hp
  simp only [Nat.testBit_and] at hpi
  simp only [regmap_update_bits_val, complement32, Nat.testBit_and,
    Nat.testBit_or, Nat.testBit_xor, Nat.testBit_two_pow_sub_one]
  by_cases hpb : p.testBit i = true
  · have hmb : mask.testBit i = true := by
      rcases hb : mask.testBit i with _ | _
      · rw [hpb, hb] at hpi; simp at hpi
      · rfl
    have hi : i < 32 := by
      by_contra hge
      rw [testBit_eq_false_of_lt_32 hmask hge] at hmb
      exact Bool.false_ne_true hmb
    simp [hpb, hmb, hi]
  · rw [Bool.not_eq_true] at hpb
    simp [hpb]

/-- On any mask `p` disjoint from `mask`, an update-bits result keeps the bits
of `orig`. -/
theorem regmap_update_bits_val_and_disjoint (orig mask val p : Nat)
    (hp32 : p < 2 ^ 32) (hdisj : p &&& mask = 0) :
    regmap_update_bits_val orig mask val &&& p = orig &&& p := by
  apply Nat.eq_of_testBit_eq
  intro i
  have hpi := congrArg (fun n => n.testBit i) hdisj
  simp only [Nat.testBit_and, Nat.zero_testBit] at hpi
  simp only [regmap_update_bits_val, complement32, Nat.testBit_and,
    Nat.testBit_or, Nat.testBit_xor, Nat.testBit_two_pow_sub_one]
  by_cases hpb : p.testBit i = true
  · have hmb : mask.testBit i = false := by
      rcases hb : mask.testBit i with _ | _
      · rfl
      · rw [hpb, hb] at hpi; simp at hpi
    have hi : i < 32 := by
      by_contra hge
      rw [testBit_eq_false_of_lt_32 hp32 hge] at hpb
      exact Bool.false_ne_true hpb
    simp [hpb, hmb, hi]
  · rw [Bool.not_eq_true] at hpb
    simp [hpb]

/-- Two states that agree on a mask `p` still agree on `p` after the same
update-bits operation. -/
theorem regmap_update_bits_val_and_congr (a b mask val p : Nat)
    (h : a &&& p = b &&& p) :
    regmap_update_bits_val a mask val &&& p = regmap_update_bits_val b mask val &&& p := by
  apply Nat.eq_of_testBit_eq
  intro i
  have hpi := congrArg (fun n => n.testBit i) h
  simp only [Nat.testBit_and] at hpi
  simp only [regmap_update_bits_val, Nat.testBit_and, Nat.testBit_or]
  by_cases hpb : p.testBit i = true
  · have hab : a.testBit i = b.testBit i := by
      rw [hpb] at hpi
      simpa using hpi
    rw [hab]
  · rw [Bool.not_eq_true] at hpb
    simp [hpb]

/-! ## Claim C1 -/

/-- Claim C1 (code bug): `super_key_lock_store` is claimed to fire the toggle
trigger exactly when the current super-key-lock state differs from the
requested one.  In the code, `ret` (holding the parsed desired value) is
overwritten by `regmap_read`'s success return value 0 before the comparison,
so the result is independent of `desired`: the trigger fires exactly when the
`SUPER_KEY_LOCK_STATUS` bit is clear.  In particular, storing "enable"
(desired = 1) while the status bit is clear — a state `super_key_lock_show`
reports as already "enable" — still fires the trigger. -/
theorem super_key_lock_store_ignores_desired :
    (∀ (d dp : Nat) (r : Except Int Nat) (t : Except Int Unit),
      super_key_lock_store d r t = super_key_lock_store dp r t) ∧
    (∀ (d v : Nat) (t : Except Int Unit),
      (super_key_lock_store d (.ok v) t).fired =
        decide (v &&& SUPER_KEY_LOCK_STATUS = 0)) ∧
    super_key_lock_shown 0 = 1 ∧
    (super_key_lock_store 1 (.ok 0) (.ok ())).fired = true := by
  refine ⟨fun d dp r t => rfl, fun d v t => ?_, rfl, rfl⟩
  by_cases h : v &&& SUPER_KEY_LOCK_STATUS = 0 <;>
    cases t <;> simp [super_key_lock_store, cLogicalNot, h]

/-! ## Claim C2 -/

/-- Claim C2: whenever the 32-bit call channel yields the sentinel
`0xFEFEFEFE`, both `uniwill_ec_reg_write` and `uniwill_ec_reg_read` return
`-ENXIO`, a failed write never updates the regmap cache, and a successful
read never hands the sentinel out as data (its result is a single byte). -/
theorem uniwill_ec_sentinel_never_data (c : CallResult)
    (cache : Nat → Option Nat) (reg val : Nat) :
    (c = .ok 0xFEFEFEFE →
      uniwill_ec_reg_write c = .error (- ENXIO) ∧
      uniwill_ec_reg_read c = .error (- ENXIO) ∧
      regcache_after_write cache reg val (uniwill_ec_reg_write c) = cache) ∧
    (∀ v, uniwill_ec_reg_read c = .ok v → v < 256 ∧ v ≠ 0xFEFEFEFE) := by
  constructor
  · rintro rfl
    exact ⟨rfl, rfl, rfl⟩
  · intro v hv
    match c with
    | .error e => simp [uniwill_ec_reg_read] at hv
    | .ok output =>
      by_cases ho : output = 0xFEFEFEFE
      · simp [uniwill_ec_reg_read, ho] at hv
      · simp [uniwill_ec_reg_read, ho] at hv
        subst hv
        refine ⟨Nat.mod_lt _ (by norm_num), ?_⟩
        have : output % 256 < 256 := Nat.mod_lt _ (by norm_num)
        omega

/-- Witness for claim C2 at concrete inputs. -/
theorem uniwill_ec_sentinel_never_data_witness :
    uniwill_ec_reg_write (.ok 0xFEFEFEFE) = .error (- ENXIO) ∧
    (5 : Nat) < 256 ∧ (5 : Nat) ≠ 0xFEFEFEFE := by
  refine ⟨((uniwill_ec_sentinel_never_data (.ok 0xFEFEFEFE)
    (fun _ => none) 0 0).1 rfl).1, ?_⟩
  exact (uniwill_ec_sentinel_never_data (.ok 5) (fun _ => none) 0 0).2 5 rfl

/-! ## Claim C5 -/

/-- Claim C5: on the success path, `uniwill_resume` first leaves cache-only
mode and replays the dirty cache entries, then restores the saved charge
limit into the 7-bit charge-control field, then reads the switch status; the
super-key-lock toggle trigger is fired if and only if the saved
`SUPER_KEY_LOCK_STATUS` bit differs from the one just read. -/
theorem uniwill_resume_order_and_toggle (ls lc v : Nat) :
    uniwill_resume ls lc (.ok ()) (.ok ()) (.ok v) (.ok ()) =
      (.ok (), [ECOp.cacheOnly false, ECOp.sync,
        ECOp.updateBits EC_ADDR_CHARGE_CTRL CHARGE_CTRL_MASK lc,
        ECOp.read EC_ADDR_SWITCH_STATUS] ++
        (if ls &&& SUPER_KEY_LOCK_STATUS = v &&& SUPER_KEY_LOCK_STATUS then []
         else [ECOp.writeBits EC_ADDR_TRIGGER TRIGGER_SUPER_KEY_LOCK
           TRIGGER_SUPER_KEY_LOCK])) ∧
    (ECOp.writeBits EC_ADDR_TRIGGER TRIGGER_SUPER_KEY_LOCK TRIGGER_SUPER_KEY_LOCK ∈
        (uniwill_resume ls lc (.ok ()) (.ok ()) (.ok v) (.ok ())).2 ↔
      ls &&& SUPER_KEY_LOCK_STATUS ≠ v &&& SUPER_KEY_LOCK_STATUS) := by
  by_cases h : ls &&& SUPER_KEY_LOCK_STATUS = v &&& SUPER_KEY_LOCK_STATUS <;>
    simp [uniwill_resume, h]

/-! ## Claim C7 -/

/-- Claim C7 (code bug): the temperature and fan cases of `uniwill_read`
propagate a failed register read unchanged, but the PWM case omits the
`ret < 0` check: with the register read failing (here with `-ENXIO`) it still
returns success, computed from the stale content of the uninitialised `value`
variable, instead of the error. -/
theorem uniwill_read_pwm_drops_error :
    (∀ (e : Int) (p : Except Int (Nat × Nat)) (st : Nat),
      uniwill_read .temp 0 (.error e) p st = .error e ∧
      uniwill_read .temp 1 (.error e) p st = .error e) ∧
    (∀ (e : Int) (b : Except Int Nat) (st : Nat),
      uniwill_read .fan 0 b (.error e) st = .error e ∧
      uniwill_read .fan 1 b (.error e) st = .error e) ∧
    uniwill_read .pwm 0 (.error (- ENXIO)) (.ok (0, 0)) 0 = .ok 0 ∧
    uniwill_read .pwm 0 (.error (- ENXIO)) (.ok (0, 0)) 0 ≠ .error (- ENXIO) := by
  refine ⟨fun e p st => ⟨rfl, rfl⟩, fun e b st => ⟨rfl, rfl⟩, rfl, fun h =>
    Except.noConfusion (show (Except.ok (0 : Int) : Except Int Int) = .error (- ENXIO) from h)⟩

/-! ## Claim C8 -/

/-- Claim C8 counterexample: a successful `uniwill_suspend` run issues no
hardware or cache write whatsoever — in particular no bypass write forcing a
safe bit configuration; its trace consists of the two saving reads followed
by entering cache-only mode and marking the cache dirty. -/
theorem uniwill_suspend_no_bypass_write :
    (uniwill_suspend (.ok 5) (.ok 0x80)).result = .ok () ∧
    ((uniwill_suspend (.ok 5) (.ok 0x80)).trace.all fun a => !a.isWriteOp) = true := by
  exact ⟨rfl, rfl⟩

/-- Claim C8 (amended): a successful `uniwill_suspend` saves the switch
status and the 7-bit charge-limit field for later restoration, then enters
cache-only mode and marks the cache dirty before returning; it performs no
bypass write. -/
theorem uniwill_suspend_saves_and_caches (sw cv : Nat) :
    uniwill_suspend (.ok sw) (.ok cv) =
      { result := .ok (), lastSwitchStatus := some sw,
        lastChargeLimit := some (cv &&& CHARGE_CTRL_MASK),
        trace := [.read EC_ADDR_SWITCH_STATUS, .read EC_ADDR_CHARGE_CTRL,
                  .cacheOnly true, .markDirty] } ∧
    ((uniwill_suspend (.ok sw) (.ok cv)).trace.all fun a => !a.isWriteOp) = true := by
  exact ⟨rfl, rfl⟩

/-! ## Claim C3 -/

/-- Claim C3: a requested charge threshold outside 1..100 is rejected with
`-EINVAL` before any register access (so the charge-control register is left
unchanged), while a value in range is written into the 7-bit
`CHARGE_CTRL_MASK` field, leaves the read-only `CHARGE_CTRL_REACHED` bit of
the register untouched, and reads back unchanged through
`uniwill_get_property`, which masks the reached-flag bit out. -/
theorem uniwill_charge_threshold_spec (v : Int) (r : Nat) :
    ((v < 1 ∨ 100 < v) → uniwill_set_property_charge v r = .error (-EINVAL)) ∧
    (1 ≤ v → v ≤ 100 →
      uniwill_set_property_charge v r =
        .ok (regmap_update_bits_val r CHARGE_CTRL_MASK v.toNat) ∧
      regmap_update_bits_val r CHARGE_CTRL_MASK v.toNat &&& CHARGE_CTRL_MASK = v.toNat ∧
      regmap_update_bits_val r CHARGE_CTRL_MASK v.toNat &&& CHARGE_CTRL_REACHED =
        r &&& CHARGE_CTRL_REACHED ∧
      uniwill_get_property_charge
        (.ok (regmap_update_bits_val r CHARGE_CTRL_MASK v.toNat)) = .ok v.toNat) := by
  constructor
  · intro h
    simp only [uniwill_set_property_charge, if_pos h]
  · intro h1 h2
    have hcond : ¬(v < 1 ∨ v > 100) := by omega
    have hn : v.toNat &&& CHARGE_CTRL_MASK = v.toNat := by
      have hlt : v.toNat < 2 ^ 7 := by omega
      calc v.toNat &&& CHARGE_CTRL_MASK
          = v.toNat &&& (2 ^ 7 - 1) := by norm_num [CHARGE_CTRL_MASK]
        _ = v.toNat := Nat.and_pow_two_sub_one_of_lt_two_pow hlt
    have hfield := regmap_update_bits_val_and_submask r CHARGE_CTRL_MASK v.toNat
      CHARGE_CTRL_MASK (by decide) (by decide)
    have hreached := regmap_update_bits_val_and_disjoint r CHARGE_CTRL_MASK v.toNat
      CHARGE_CTRL_REACHED (by decide) (by decide)
    refine ⟨by simp only [uniwill_set_property_charge, if_neg hcond], ?_, hreached, ?_⟩
    · rw [hfield, hn]
    · have hmin : min (max v.toNat 0) 100 = v.toNat := by omega
      simp only [uniwill_get_property_charge, hfield, hn, hmin]

/-- Witness for claim C3: threshold 150 is rejected; threshold 80 written
over a register with the reached bit set reads back as 80. -/
theorem uniwill_charge_threshold_witness :
    uniwill_set_property_charge 150 0 = .error (-EINVAL) ∧
    uniwill_get_property_charge
      (.ok (regmap_update_bits_val 255 CHARGE_CTRL_MASK 80)) = .ok 80 := by
  constructor
  · exact (uniwill_charge_threshold_spec 150 0).1 (Or.inr (by norm_num))
  · have h := ((uniwill_charge_threshold_spec 80 255).2 (by norm_num) (by norm_num)).2.2.2
    simpa using h

/-! ## Claim C6 -/

/-- Claim C6 counterexample: the round-trip through the inverse scaling
fails at the point 100: `hardware_to_software 100 = 127` and
`software_to_hardware 127 = 99`, not 100. -/
theorem pwm_round_trip_fails_at_100 :
    software_to_hardware (hardware_to_software 100) = 99 ∧
    software_to_hardware (hardware_to_software 100) ≠ 100 := by
  constructor
  · decide
  · decide

/-- On the hardware range, `hardware_to_software` is exactly
`(255 * x) / 200` in truncating integer arithmetic. -/
theorem hardware_to_software_eq_div (x : Int) (h0 : 0 ≤ x) (h1 : x ≤ 200) :
    hardware_to_software x = ((255 * x.toNat) / 200 : Nat) := by
  obtain ⟨n, rfl⟩ : ∃ n : Nat, x = (n : Int) := ⟨x.toNat, (Int.toNat_of_nonneg h0).symm⟩
  have hn : n ≤ 200 := by exact_mod_cast h1
  rcases Nat.eq_or_lt_of_le hn with h200 | hlt
  · subst h200
    decide
  · rcases Nat.eq_zero_or_pos n with hz | hpos
    · subst hz
      decide
    · simp only [hardware_to_software, fixp_linear_interpolate, PWM_MAX, U8_MAX,
        Nat.cast_ofNat]
      have hA : ¬((0 : Int) = 255 ∨ (n : Int) = 0) := by
        push_neg
        exact ⟨by norm_num, by exact_mod_cast hpos.ne'⟩
      have hB : ¬((200 : Int) = 0 ∨ (n : Int) = 200) := by
        push_neg
        exact ⟨by norm_num, by exact_mod_cast hlt.ne⟩
      rw [if_neg hA, if_neg hB]
      have key : ((255 * n / 200 : Nat) : Int) =
          Int.tdiv ((255 * n : Nat) : Int) ((200 : Nat) : Int) :=
        Int.ofNat_tdiv (255 * n) 200
      simp only [Int.toNat_natCast, sub_zero, zero_add]
      rw [key]
      push_cast
      ring_nf

/-- Claim C6 (amended): `hardware_to_software` is the exact integer linear
interpolation with `hardware_to_software 0 = 0` and
`hardware_to_software 200 = 255`, it is monotonically non-decreasing on
0..200, and it round-trips with the inverse scaling at the points 0 and 200 —
but not at 100, where the round trip returns 99. -/
theorem hardware_to_software_spec :
    hardware_to_software 0 = 0 ∧
    hardware_to_software 200 = 255 ∧
    (∀ a b : Int, 0 ≤ a → a ≤ b → b ≤ 200 →
      hardware_to_software a ≤ hardware_to_software b) ∧
    software_to_hardware (hardware_to_software 0) = 0 ∧
    software_to_hardware (hardware_to_software 200) = 200 := by
  refine ⟨by decide, by decide, ?_, by decide, by decide⟩
  intro a b ha hab hb
  rw [hardware_to_software_eq_div a ha (le_trans hab hb),
      hardware_to_software_eq_div b (le_trans ha hab) hb]
  have h := Nat.div_le_div_right (c := 200)
    (Nat.mul_le_mul_left 255 (Int.toNat_le_toNat hab))
  exact_mod_cast h

/-- Witness for claim C6 (amended) at concrete inputs. -/
theorem hardware_to_software_spec_witness :
    hardware_to_software 50 ≤ hardware_to_software 100 ∧
    hardware_to_software 200 = 255 := by
  exact ⟨hardware_to_software_spec.2.2.1 50 100 (by norm_num) (by norm_num) (by norm_num),
    hardware_to_software_spec.2.1⟩

/-! ## Claim C9 -/

/-- Claim C9 (spec-modelled): when `set_mode(Manual(duty))` sees the duty
write fail and the automatic-mode fallback write succeed, the original error
is returned, the fan-control register carries the automatic-mode fallback
value, and the resulting mode decodes as `Automatic`. -/
theorem fan_manual_rollback (duty rv : Nat) (e : Int) (s : FanRegs) :
    (fan_set_mode_manual duty (.ok rv) (.ok ()) (.error e) (.ok ()) s).1 = .error e ∧
    (fan_set_mode_manual duty (.ok rv) (.ok ()) (.error e) (.ok ()) s).2.fanCtrl =
      fan_set_auto_val (regmap_update_bits_val s.fanCtrl FAN_MODE_BOOST FAN_MODE_BOOST) ∧
    fan_get_mode (fan_set_mode_manual duty (.ok rv) (.ok ()) (.error e) (.ok ()) s).2 =
      .automatic := by
  refine ⟨rfl, rfl, ?_⟩
  have hboost : fan_set_auto_val
      (regmap_update_bits_val s.fanCtrl FAN_MODE_BOOST FAN_MODE_BOOST) &&&
      FAN_MODE_BOOST = 0 := by
    have h := regmap_update_bits_val_and_submask
      (regmap_update_bits_val s.fanCtrl FAN_MODE_BOOST FAN_MODE_BOOST)
      FAN_AUTO_CLEAR_MASK 0 FAN_MODE_BOOST (by decide) (by decide)
    simpa [fan_set_auto_val] using h
  by_cases ha : s.apOem &&& ENABLE_MANUAL_CTRL = 0 <;>
    simp [fan_get_mode, fan_set_mode_manual, ha, hboost]

/-! ## Claim C4 -/

/-- Inversion of one step of the `uniwill_led_init` channel loop: a
successful run over `i :: rest` succeeded on both register calls of channel
`i` and continues over `rest` with the battery colour register set to the AC
colour value. -/
theorem ledInitChannels_ok_cons {f : Nat → Option Int} {i : Nat}
    {rest : List Nat} {k : Nat} {s : Regs} {out : Regs × Nat}
    (h : ledInitChannels f (i :: rest) k s = .ok out) :
    ledInitChannels f rest (k + 2)
      (setReg s (uniwill_led_channel_to_bat_reg i)
        (s (uniwill_led_channel_to_ac_reg i))) = .ok out := by
  unfold ledInitChannels at h
  rcases hfk : f k with _ | e
  · rcases hfk1 : f (k + 1) with _ | e
    · simpa [hfk, hfk1] using h
    · simp [hfk, hfk1] at h
  · simp [hfk] at h

/-- Inversion of the empty `uniwill_led_init` channel loop. -/
theorem ledInitChannels_ok_nil {f : Nat → Option Int} {k : Nat} {s : Regs}
    {out : Regs × Nat} (h : ledInitChannels f [] k s = .ok out) :
    out = (s, k) := by
  unfold ledInitChannels at h
  exact (Except.ok.inj h).symm

/-- Inversion of one step of the `uniwill_led_brightness_set` channel loop:
a successful run over `i :: rest` succeeded on both colour writes of channel
`i`, which store `min U8_MAX (comps i)` in the AC and battery colour
registers. -/
theorem ledWriteChannels_ok_cons {f : Nat → Option Int} {comps : Nat → Nat}
    {i : Nat} {rest : List Nat} {k : Nat} {s : Regs} {out : Regs × Nat}
    (h : ledWriteChannels f comps (i :: rest) k s = .ok out) :
    ledWriteChannels f comps rest (k + 2)
      (setReg (setReg s (uniwill_led_channel_to_ac_reg i) (min U8_MAX (comps i)))
        (uniwill_led_channel_to_bat_reg i) (min U8_MAX (comps i))) = .ok out := by
  unfold ledWriteChannels at h
  rcases hfk : f k with _ | e
  · rcases hfk1 : f (k + 1) with _ | e
    · simpa [hfk, hfk1] using h
    · simp [hfk, hfk1] at h
  · simp [hfk] at h

/-- Inversion of the empty `uniwill_led_brightness_set` channel loop. -/
theorem ledWriteChannels_ok_nil {f : Nat → Option Int} {comps : Nat → Nat}
    {k : Nat} {s : Regs} {out : Regs × Nat}
    (h : ledWriteChannels f comps [] k s = .ok out) :
    out = (s, k) := by
  unfold ledWriteChannels at h
  exact (Except.ok.inj h).symm

/-- Claim C4: every successful lightbar operation leaves the AC and battery
banks mirrored — `uniwill_led_init` establishes `lightbarMirrored`
unconditionally, and `uniwill_led_brightness_set` (which performs both the
colour writes and the on/off update) preserves it; hence after any successful
operation in a run starting with initialization, the AC and battery colour
registers are equal and the control registers agree on all `LIGHTBAR_MASK`
bits. -/
theorem uniwill_lightbar_mirrored :
    (∀ (f : Nat → Option Int) (s sp : Regs),
      uniwill_led_init f s = .ok sp → lightbarMirrored sp) ∧
    (∀ (calcRes : Option Int) (f : Nat → Option Int) (comps : Nat → Nat)
        (brightness : Nat) (s sp : Regs),
      lightbarMirrored s →
      uniwill_led_brightness_set calcRes f comps brightness s = .ok sp →
      lightbarMirrored sp) := by
  constructor
  · intro f s sp h
    unfold uniwill_led_init at h
    rcases hf0 : f 0 with _ | e
    · rcases hf1 : f 1 with _ | e
      · rcases hf2 : f 2 with _ | e
        · simp only [hf0, hf1, hf2] at h
          split at h
          · exact Except.noConfusion h
          · next s3 k heq =>
              injection h with h
              subst h
              have h1 := ledInitChannels_ok_cons heq
              have h2 := ledInitChannels_ok_cons h1
              have h3 := ledInitChannels_ok_cons h2
              have h4 := ledInitChannels_ok_nil h3
              rw [Prod.mk.injEq] at h4
              obtain ⟨hs3, -⟩ := h4
              subst hs3
              refine ⟨?_, ?_, ?_, ?_⟩
              · simp [setReg, uniwill_led_channel_to_ac_reg,
                  uniwill_led_channel_to_bat_reg, EC_ADDR_LIGHTBAR_AC_CTRL,
                  EC_ADDR_LIGHTBAR_AC_RED, EC_ADDR_LIGHTBAR_AC_GREEN,
                  EC_ADDR_LIGHTBAR_AC_BLUE, EC_ADDR_LIGHTBAR_BAT_CTRL,
                  EC_ADDR_LIGHTBAR_BAT_RED, EC_ADDR_LIGHTBAR_BAT_GREEN,
                  EC_ADDR_LIGHTBAR_BAT_BLUE]
              · simp [setReg, uniwill_led_channel_to_ac_reg,
                  uniwill_led_channel_to_bat_reg, EC_ADDR_LIGHTBAR_AC_CTRL,
                  EC_ADDR_LIGHTBAR_AC_RED, EC_ADDR_LIGHTBAR_AC_GREEN,
                  EC_ADDR_LIGHTBAR_AC_BLUE, EC_ADDR_LIGHTBAR_BAT_CTRL,
                  EC_ADDR_LIGHTBAR_BAT_RED, EC_ADDR_LIGHTBAR_BAT_GREEN,
                  EC_ADDR_LIGHTBAR_BAT_BLUE]
              · simp [setReg, uniwill_led_channel_to_ac_reg,
                  uniwill_led_channel_to_bat_reg, EC_ADDR_LIGHTBAR_AC_CTRL,
                  EC_ADDR_LIGHTBAR_AC_RED, EC_ADDR_LIGHTBAR_AC_GREEN,
                  EC_ADDR_LIGHTBAR_AC_BLUE, EC_ADDR_LIGHTBAR_BAT_CTRL,
                  EC_ADDR_LIGHTBAR_BAT_RED, EC_ADDR_LIGHTBAR_BAT_GREEN,
                  EC_ADDR_LIGHTBAR_BAT_BLUE]
              · simp only [setReg, uniwill_led_channel_to_ac_reg,
                  uniwill_led_channel_to_bat_reg, EC_ADDR_LIGHTBAR_AC_CTRL,
                  EC_ADDR_LIGHTBAR_AC_RED, EC_ADDR_LIGHTBAR_AC_GREEN,
                  EC_ADDR_LIGHTBAR_AC_BLUE, EC_ADDR_LIGHTBAR_BAT_CTRL,
                  EC_ADDR_LIGHTBAR_BAT_RED, EC_ADDR_LIGHTBAR_BAT_GREEN,
                  EC_ADDR_LIGHTBAR_BAT_BLUE]
                norm_num
                exact (regmap_update_bits_val_and_submask _ LIGHTBAR_MASK _
                  LIGHTBAR_MASK (by decide) (by decide)).symm
        · simp [hf0, hf1, hf2] at h
      · simp [hf0, hf1] at h
    · simp [hf0] at h
  · intro calcRes f comps brightness s sp hs h
    obtain ⟨hs1, hs2, hs3, hs4⟩ := hs
    unfold uniwill_led_brightness_set at h
    rcases calcRes with _ | e
    case some => exact Except.noConfusion h
    dsimp only at h
    split at h
    · exact Except.noConfusion h
    · next s1 k heq =>
        rcases hfk : f k with _ | e
        · rcases hfk1 : f (k + 1) with _ | e
          · simp only [hfk, hfk1] at h
            injection h with h
            subst h
            have h1 := ledWriteChannels_ok_cons heq
            have h2 := ledWriteChannels_ok_cons h1
            have h3 := ledWriteChannels_ok_cons h2
            have h4 := ledWriteChannels_ok_nil h3
            rw [Prod.mk.injEq] at h4
            obtain ⟨hfin, -⟩ := h4
            subst hfin
            refine ⟨?_, ?_, ?_, ?_⟩
            · simp [setReg, uniwill_led_channel_to_ac_reg,
                uniwill_led_channel_to_bat_reg, EC_ADDR_LIGHTBAR_AC_CTRL,
                EC_ADDR_LIGHTBAR_AC_RED, EC_ADDR_LIGHTBAR_AC_GREEN,
                EC_ADDR_LIGHTBAR_AC_BLUE, EC_ADDR_LIGHTBAR_BAT_CTRL,
                EC_ADDR_LIGHTBAR_BAT_RED, EC_ADDR_LIGHTBAR_BAT_GREEN,
                EC_ADDR_LIGHTBAR_BAT_BLUE]
            · simp [setReg, uniwill_led_channel_to_ac_reg,
                uniwill_led_channel_to_bat_reg, EC_ADDR_LIGHTBAR_AC_CTRL,
                EC_ADDR_LIGHTBAR_AC_RED, EC_ADDR_LIGHTBAR_AC_GREEN,
                EC_ADDR_LIGHTBAR_AC_BLUE, EC_ADDR_LIGHTBAR_BAT_CTRL,
                EC_ADDR_LIGHTBAR_BAT_RED, EC_ADDR_LIGHTBAR_BAT_GREEN,
                EC_ADDR_LIGHTBAR_BAT_BLUE]
            · simp [setReg, uniwill_led_channel_to_ac_reg,
                uniwill_led_channel_to_bat_reg, EC_ADDR_LIGHTBAR_AC_CTRL,
                EC_ADDR_LIGHTBAR_AC_RED, EC_ADDR_LIGHTBAR_AC_GREEN,
                EC_ADDR_LIGHTBAR_AC_BLUE, EC_ADDR_LIGHTBAR_BAT_CTRL,
                EC_ADDR_LIGHTBAR_BAT_RED, EC_ADDR_LIGHTBAR_BAT_GREEN,
                EC_ADDR_LIGHTBAR_BAT_BLUE]
            · simp only [setReg, uniwill_led_channel_to_ac_reg,
                uniwill_led_channel_to_bat_reg, EC_ADDR_LIGHTBAR_AC_CTRL,
                EC_ADDR_LIGHTBAR_AC_RED, EC_ADDR_LIGHTBAR_AC_GREEN,
                EC_ADDR_LIGHTBAR_AC_BLUE, EC_ADDR_LIGHTBAR_BAT_CTRL,
                EC_ADDR_LIGHTBAR_BAT_RED, EC_ADDR_LIGHTBAR_BAT_GREEN,
                EC_ADDR_LIGHTBAR_BAT_BLUE]
              norm_num
              exact regmap_update_bits_val_and_congr _ _ LIGHTBAR_S0_OFF _
                LIGHTBAR_MASK (by
                  simpa [EC_ADDR_LIGHTBAR_AC_CTRL, EC_ADDR_LIGHTBAR_BAT_CTRL]
                    using hs4)
          · simp [hfk, hfk1] at h
        · simp [hfk] at h

/-- Witness for claim C4: a successful init run from the all-zero state and
a successful brightness-set run from the all-zero state (which is mirrored)
both end in mirrored states. -/
theorem uniwill_lightbar_mirrored_witness :
    lightbarMirrored ledInitDemoFinal ∧ lightbarMirrored ledMirrorDemoFinal := by
  constructor
  · exact uniwill_lightbar_mirrored.1 (fun _ => none) (fun _ => 0) ledInitDemoFinal rfl
  · exact uniwill_lightbar_mirrored.2 none (fun _ => none) (fun _ => 0) 0
      (fun _ => 0) ledMirrorDemoFinal ⟨rfl, rfl, rfl, rfl⟩ rfl

/-! ## Claim C10 -/

/-- Claim C10: on every successful `uniwill_led_brightness_set` run, the
value stored in the AC and battery colour register of each channel is
`min(U8_MAX, subled_info[i].brightness)`, so every stored value fits in an
unsigned byte even when the multicolor computation produced a larger
component. -/
theorem uniwill_led_brightness_clamped (calcRes : Option Int)
    (f : Nat → Option Int) (comps : Nat → Nat) (brightness : Nat)
    (s sp : Regs) (h : uniwill_led_brightness_set calcRes f comps brightness s = .ok sp) :
    ∀ i, i < 3 →
      sp (uniwill_led_channel_to_ac_reg i) = min U8_MAX (comps i) ∧
      sp (uniwill_led_channel_to_bat_reg i) = min U8_MAX (comps i) ∧
      sp (uniwill_led_channel_to_ac_reg i) ≤ 255 ∧
      sp (uniwill_led_channel_to_bat_reg i) ≤ 255 := by
  unfold uniwill_led_brightness_set at h
  rcases calcRes with _ | e
  case some => exact Except.noConfusion h
  dsimp only at h
  split at h
  · exact Except.noConfusion h
  · next s1 k heq =>
      rcases hfk : f k with _ | e
      · rcases hfk1 : f (k + 1) with _ | e
        · simp only [hfk, hfk1] at h
          injection h with h
          subst h
          have h1 := ledWriteChannels_ok_cons heq
          have h2 := ledWriteChannels_ok_cons h1
          have h3 := ledWriteChannels_ok_cons h2
          have h4 := ledWriteChannels_ok_nil h3
          rw [Prod.mk.injEq] at h4
          obtain ⟨hfin, -⟩ := h4
          subst hfin
          intro i hi
          interval_cases i <;>
            refine ⟨?_, ?_, ?_, ?_⟩ <;>
            simp [setReg, uniwill_led_channel_to_ac_reg,
              uniwill_led_channel_to_bat_reg, U8_MAX, EC_ADDR_LIGHTBAR_AC_CTRL,
              EC_ADDR_LIGHTBAR_AC_RED, EC_ADDR_LIGHTBAR_AC_GREEN,
              EC_ADDR_LIGHTBAR_AC_BLUE, EC_ADDR_LIGHTBAR_BAT_CTRL,
              EC_ADDR_LIGHTBAR_BAT_RED, EC_ADDR_LIGHTBAR_BAT_GREEN,
              EC_ADDR_LIGHTBAR_BAT_BLUE]
        · simp [hfk, hfk1] at h
      · simp [hfk] at h

/-- Witness for claim C10: a concrete successful run with every component
300 stores `min U8_MAX 300 = 255` in the red colour registers. -/
theorem uniwill_led_brightness_clamped_witness :
    ledClampDemoFinal (uniwill_led_channel_to_ac_reg 0) = min U8_MAX 300 ∧
    ledClampDemoFinal (uniwill_led_channel_to_bat_reg 0) = min U8_MAX 300 ∧
    ledClampDemoFinal (uniwill_led_channel_to_ac_reg 0) ≤ 255 ∧
    ledClampDemoFinal (uniwill_led_channel_to_bat_reg 0) ≤ 255 := by
  exact uniwill_led_brightness_clamped none (fun _ => none) (fun _ => 300) 255
    (fun _ => 0) ledClampDemoFinal rfl 0 (by norm_num)

end Uniwill
